import Mathlib

/-!
Verification of the RFM segmentation / alert core of
`app_rfm_dashboard_predef_alerts.py` (an Elasticsearch-backed RFM dashboard).

The store-side painless script, the percentile fetch and the alert rules are
shallowly embedded: the analytical store is a list of customer records plus
the percentile responses it would return; all numeric values are rationals
(the script works on doubles, but every comparison and threshold in the code
is order-theoretic, so ℚ is a faithful carrier for the properties below).
-/

namespace RFMElk

/-- The seven segment labels of the rule cascade (source lines 93-99). -/
inductive Segment where
  | champions
  | loyalCustomers
  | frequentBuyers
  | bigSpenders
  | potentialLoyalists
  | atRisk
  | hibernating
deriving DecidableEq, Fintype, Repr

/-- The string the painless script returns for each label. -/
def Segment.label : Segment → String
  | .champions => "Champions"
  | .loyalCustomers => "Loyal Customers"
  | .frequentBuyers => "Frequent Buyers"
  | .bigSpenders => "Big Spenders"
  | .potentialLoyalists => "Potential Loyalists"
  | .atRisk => "At Risk"
  | .hibernating => "Hibernating"

/-- The four percentile cutpoints (20/40/60/80) interpolated into the script
for one metric. -/
structure Cuts where
  c20 : ℚ
  c40 : ℚ
  c60 : ℚ
  c80 : ℚ
deriving DecidableEq, Repr

/-- Recency sub-score, source lines 76-79: reversed 5-way step function,
`r <= cut20 ? 5 : r <= cut40 ? 4 : r <= cut60 ? 3 : r <= cut80 ? 2 : 1`. -/
def scoreR (c : Cuts) (r : ℚ) : ℤ :=
  if r ≤ c.c20 then 5
  else if r ≤ c.c40 then 4
  else if r ≤ c.c60 then 3
  else if r ≤ c.c80 then 2
  else 1

/-- Frequency sub-score, source lines 81-84: direct 5-way step function,
`f <= cut20 ? 1 : f <= cut40 ? 2 : f <= cut60 ? 3 : f <= cut80 ? 4 : 5`. -/
def scoreF (c : Cuts) (f : ℚ) : ℤ :=
  if f ≤ c.c20 then 1
  else if f ≤ c.c40 then 2
  else if f ≤ c.c60 then 3
  else if f ≤ c.c80 then 4
  else 5

/-- Monetary sub-score, source lines 86-89: same direct step shape as `scoreF`. -/
def scoreM (c : Cuts) (m : ℚ) : ℤ :=
  if m ≤ c.c20 then 1
  else if m ≤ c.c40 then 2
  else if m ≤ c.c60 then 3
  else if m ≤ c.c80 then 4
  else 5

/-- The if/else-if cascade of source lines 91-99, applied to the three
sub-scores, with `code = R*100 + F*10 + M`. -/
def classify (R F M : ℤ) : Segment :=
  let code := R * 100 + F * 10 + M
  if code ≥ 544 then .champions
  else if R = 5 ∨ (R = 4 ∧ F ≥ 4) then .loyalCustomers
  else if F = 5 then .frequentBuyers
  else if M = 5 then .bigSpenders
  else if R ≥ 4 ∧ F ≤ 2 then .potentialLoyalists
  else if R = 2 then .atRisk
  else .hibernating

/-- The cascade read as an ordered rule table, one entry per branch of the
source's if/else-if chain, in the exact declaration order
Champions, Loyal Customers, Frequent Buyers, Big Spenders,
Potential Loyalists, At Risk, Hibernating (the last entry is the catch-all). -/
def rules : List ((ℤ × ℤ × ℤ → Bool) × Segment) :=
  [ (fun t => decide (t.1 * 100 + t.2.1 * 10 + t.2.2 ≥ 544), .champions)
  , (fun t => decide (t.1 = 5 ∨ (t.1 = 4 ∧ t.2.1 ≥ 4)), .loyalCustomers)
  , (fun t => decide (t.2.1 = 5), .frequentBuyers)
  , (fun t => decide (t.2.2 = 5), .bigSpenders)
  , (fun t => decide (t.1 ≥ 4 ∧ t.2.1 ≤ 2), .potentialLoyalists)
  , (fun t => decide (t.1 = 2), .atRisk)
  , (fun _ => true, .hibernating) ]

/-- First-match-wins evaluation of an ordered rule table. -/
def firstMatch : List ((ℤ × ℤ × ℤ → Bool) × Segment) → ℤ × ℤ × ℤ → Option Segment
  | [], _ => none
  | (p, s) :: rest, t => if p t then some s else firstMatch rest t

/-- All seven labels, in cascade order. -/
def allSegments : List Segment :=
  [.champions, .loyalCustomers, .frequentBuyers, .bigSpenders,
   .potentialLoyalists, .atRisk, .hibernating]

/-- One customer record of the `ecommerce_customers` index, restricted to the
fields the core reads: the three RFM metrics, the `Average Rating` field
(absent on some records, hence optional), and the satisfaction level keyword. -/
structure Customer where
  recency : ℚ
  frequency : ℚ
  monetary : ℚ
  rating : Option ℚ
  satisfaction : String
deriving DecidableEq, Repr

/-- The per-metric cut sets interpolated into the painless script. -/
structure CutSet where
  r : Cuts
  f : Cuts
  m : Cuts
deriving DecidableEq, Repr

/-- The label the pushed-down script assigns to one record (script body of
source lines 71-99 evaluated per document). -/
def segmentOf (cs : CutSet) (c : Customer) : Segment :=
  classify (scoreR cs.r c.recency) (scoreF cs.f c.frequency) (scoreM cs.m c.monetary)

/-- `doc_count` of one bucket of the `rfm_segments` terms aggregation: the
number of records the script labels `s`. -/
def segmentCount (cs : CutSet) (store : List Customer) (s : Segment) : ℕ :=
  (store.filter (fun c => segmentOf cs c = s)).length

/-- The analytical store: the customer records plus the percentile responses
the store returns for the three `percentiles` sub-aggregations of
`get_percentiles` (source lines 53-63).  Elasticsearch returns each response
as a `values` dict keyed by strings such as `"20.0"`; sparse data can leave
keys out, so each response is modelled as an association list. -/
structure Store where
  customers : List Customer
  rPct : List (String × ℚ)
  fPct : List (String × ℚ)
  mPct : List (String × ℚ)

/-- `agg_total_customers` (source lines 19-22): `hits.total.value`, the number
of records in the index. -/
def aggTotalCustomers (st : Store) : ℕ := st.customers.length

/-- `agg_avg_rating` (source lines 15-17): the `avg` aggregation over
`Average Rating` — null when no record carries the field, else the mean of the
present values. -/
def aggAvgRating (st : Store) : Option ℚ :=
  let vals := st.customers.filterMap (fun c => c.rating)
  if vals.length = 0 then none else some (vals.sum / vals.length)

/-- `agg_unsatisfied_count` (source lines 24-30): count of records whose
`Satisfaction_Level` keyword equals `"Unsatisfied"`. -/
def aggUnsatisfiedCount (st : Store) : ℕ :=
  (st.customers.filter (fun c => c.satisfaction == "Unsatisfied")).length

/-- `get_percentiles` (source lines 53-63): one batched request, three
percentile specs; the three `values` dicts are returned unchanged. -/
def getPercentiles (st : Store) : List (String × ℚ) × List (String × ℚ) × List (String × ℚ) :=
  (st.rPct, st.fPct, st.mPct)

/-- Dict lookup `d[k]` on a percentile `values` response. -/
def lookupKey (vals : List (String × ℚ)) (k : String) : Option ℚ :=
  (vals.find? (fun p => p.1 == k)).map (fun p => p.2)

/-- `d[k]` with Python's KeyError on a missing key, as raised by the f-string
interpolation `{r_cut['20.0']}` of source lines 76-89. -/
def getKey (vals : List (String × ℚ)) (k : String) : Except String ℚ :=
  match lookupKey vals k with
  | some v => .ok v
  | none => .error k

/-- Reading the four cutpoints of one metric out of its `values` dict, in the
order the script template interpolates them. -/
def cutsOf (vals : List (String × ℚ)) : Except String Cuts :=
  match getKey vals "20.0" with
  | .error e => .error e
  | .ok a =>
    match getKey vals "40.0" with
    | .error e => .error e
    | .ok b =>
      match getKey vals "60.0" with
      | .error e => .error e
      | .ok c =>
        match getKey vals "80.0" with
        | .error e => .error e
        | .ok d => .ok ⟨a, b, c, d⟩

/-- `compute_rfm_segments` (source lines 65-105): fetch the percentiles, build
the script from the twelve cutpoints (KeyError if any is missing), evaluate it
over every record and return the label→doc_count distribution.  The terms
aggregation is capped at `size: 10`, which never truncates the at most seven
distinct labels, so the distribution is modelled as a total count function;
a label with no matching record has count 0, matching `segs.get(label, 0)`. -/
def computeRfmSegments (st : Store) : Except String (Segment → ℕ) :=
  let pct := getPercentiles st
  match cutsOf pct.1 with
  | .error e => .error e
  | .ok rc =>
    match cutsOf pct.2.1 with
    | .error e => .error e
    | .ok fc =>
      match cutsOf pct.2.2 with
      | .error e => .error e
      | .ok mc => .ok (fun s => segmentCount ⟨rc, fc, mc⟩ st.customers s)

/-- Python's `x or 0.0` on the nullable average (source line 111): `None` and
the falsy `0.0` both coalesce to `0.0`; any other value passes through. -/
def pyOr (x : Option ℚ) : ℚ :=
  match x with
  | none => 0
  | some v => if v = 0 then 0 else v

/-- Left-pad a digit string with zeros to width `d`. -/
def padZeros (d : ℕ) (s : String) : String :=
  String.mk (List.replicate (d - s.length) '0') ++ s

/-- Python's fixed-point formatting `f"{q:.df}"` of a nonnegative value: the
value scaled by `10^d` is rounded half-to-even to an integer, whose quotient
and `d`-digit zero-padded remainder are printed around the decimal point.
The scaling and rounding are carried out on the numerator and denominator so
the whole computation lives in ℕ. -/
def fmtFixed (d : ℕ) (q : ℚ) : String :=
  let scaled := q.num.toNat * 10 ^ d
  let whole := scaled / q.den
  let rem := scaled % q.den
  let n := if q.den < 2 * rem then whole + 1
           else if 2 * rem < q.den then whole
           else if whole % 2 = 0 then whole else whole + 1
  toString (n / 10 ^ d) ++ "." ++ padZeros d (toString (n % 10 ^ d))

/-- The body of `check_alerts` (source lines 108-126) after its four aggregate
reads: the three threshold rules in declaration order, over the total count,
the nullable average rating, the unsatisfied count and the segment
distribution.  `unsat_pct` is `(unsat / total * 100) if total else 0`; the
At-Risk rule is short-circuited by `if total and ...`. -/
def checkAlertsCore (total : ℕ) (avgOpt : Option ℚ) (unsat : ℕ)
    (segs : Segment → ℕ) : List (String × String) :=
  let avgRating := pyOr avgOpt
  let unsatPct : ℚ := if total ≠ 0 then (unsat : ℚ) / (total : ℚ) * 100 else 0
  let atRisk := segs Segment.atRisk
  let a1 : List (String × String) :=
    if avgRating < 3.5 then
      [("Low average rating", "Average rating is " ++ fmtFixed 2 avgRating ++ " (< 3.5)")]
    else []
  let a2 : List (String × String) :=
    if unsatPct > 10 then
      [("High unsatisfied rate", fmtFixed 1 unsatPct ++ "% of customers are unsatisfied (>10%)")]
    else []
  let a3 : List (String × String) :=
    if total ≠ 0 ∧ (atRisk : ℚ) / (total : ℚ) * 100 > 15 then
      [("Large At-Risk group",
        toString atRisk ++ " customers (" ++ fmtFixed 1 ((atRisk : ℚ) / (total : ℚ) * 100)
          ++ "%) are At Risk (>15%)")]
    else []
  a1 ++ a2 ++ a3

/-- `check_alerts` (source lines 108-126) end to end: the aggregate reads
followed by the three rules.  A KeyError inside `compute_rfm_segments` aborts
the whole call in Python; here it surfaces as the `Except` error. -/
def checkAlerts (st : Store) : Except String (List (String × String)) :=
  match computeRfmSegments st with
  | .error e => .error e
  | .ok segs =>
    .ok (checkAlertsCore (aggTotalCustomers st) (aggAvgRating st)
      (aggUnsatisfiedCount st) segs)

/-- Substring containment, for the "message contains …" clauses. -/
def strContains (s sub : String) : Prop :=
  ∃ a b : String, s = a ++ sub ++ b

/-- The in-process state visible to one scorer invocation: the module holds
only the constant client configuration, so the store contents are the whole
of it. -/
structure ProcState where
  store : Store

/-- One invocation of the RFM scorer as a state transformer: it reads the
store and returns the distribution; nothing is written back. -/
def rfmScorerInvoke (σ : ProcState) : Except String (Segment → ℕ) × ProcState :=
  (computeRfmSegments σ.store, σ)

/-- A complete percentile response, all four keys present. -/
def fullPct : List (String × ℚ) :=
  [("20.0", 10), ("40.0", 20), ("60.0", 30), ("80.0", 40)]

/-- A one-record store with complete percentile responses. -/
def demoStore : Store :=
  ⟨[⟨5, 25, 100, some 4, "Satisfied"⟩], fullPct, fullPct, fullPct⟩

/-- A percentile response missing the `"40.0"` key, as a store can return on
sparse data. -/
def sparsePct : List (String × ℚ) :=
  [("20.0", 10), ("60.0", 30), ("80.0", 40)]

/-- A store whose recency percentile response is missing one key. -/
def sparseStore : Store :=
  ⟨[⟨5, 25, 100, some 4, "Satisfied"⟩], sparsePct, fullPct, fullPct⟩

/-- The empty store: no records, empty percentile responses. -/
def emptyStore : Store := ⟨[], [], [], []⟩

/-- The if/else-if chain of the script is exactly first-match-wins evaluation
of the ordered rule table. -/
theorem classify_eq_firstMatch (R F M : ℤ) :
    firstMatch rules (R, F, M) = some (classify R F M) := by
  simp only [rules, firstMatch, classify]
  split_ifs <;> simp_all

/-- Every label the cascade can produce is one of the seven fixed labels. -/
theorem classify_mem_allSegments (R F M : ℤ) : classify R F M ∈ allSegments := by
  cases h : classify R F M <;> simp [allSegments]

/-- C1: the cascade is first-match-wins over the rules in the exact order
Champions, Loyal Customers, Frequent Buyers, Big Spenders, Potential
Loyalists, At Risk, Hibernating; the triple (5,5,5) (code 555) classifies as
Champions — not Frequent Buyers or Big Spenders — although it satisfies the
conditions of those two later rules. -/
theorem rule_cascade_first_match_wins :
    (∀ R F M : ℤ, firstMatch rules (R, F, M) = some (classify R F M))
    ∧ rules.map Prod.snd = allSegments
    ∧ classify 5 5 5 = Segment.champions
    ∧ Segment.champions ≠ Segment.frequentBuyers
    ∧ Segment.champions ≠ Segment.bigSpenders
    ∧ (∃ p, rules.get? 2 = some (p, Segment.frequentBuyers) ∧ p (5, 5, 5) = true)
    ∧ (∃ p, rules.get? 3 = some (p, Segment.bigSpenders) ∧ p (5, 5, 5) = true) :=
  ⟨classify_eq_firstMatch, by decide, by decide, by decide, by decide,
   ⟨fun t => decide (t.2.1 = 5), rfl, by decide⟩,
   ⟨fun t => decide (t.2.2 = 5), rfl, by decide⟩⟩

/-- C6: for every sub-score triple with each component in [1,5], at least one
rule of the table matches (the catch-all Hibernating entry accepts
everything), and the assigned label is one of the fixed seven. -/
theorem cascade_total (R F M : ℤ)
    (hR1 : 1 ≤ R) (hR5 : R ≤ 5) (hF1 : 1 ≤ F) (hF5 : F ≤ 5)
    (hM1 : 1 ≤ M) (hM5 : M ≤ 5) :
    (∃ pr ∈ rules, pr.1 (R, F, M) = true) ∧ classify R F M ∈ allSegments :=
  ⟨⟨(fun _ => true, Segment.hibernating), by simp [rules], rfl⟩,
   classify_mem_allSegments R F M⟩

/-- Witness for C6 at the concrete triple (3,3,3). -/
theorem cascade_total_witness :
    (∃ pr ∈ rules, pr.1 ((3 : ℤ), (3 : ℤ), (3 : ℤ)) = true)
    ∧ classify 3 3 3 ∈ allSegments :=
  cascade_total 3 3 3 (by decide) (by decide) (by decide) (by decide)
    (by decide) (by decide)

/-- C2: a raw value exactly equal to a cutpoint lands on the ≤ side of that
boundary.  Unconditionally, recency equal to the 20th-percentile cutpoint
scores R=5 (inclusive ≤), never R=4; with the four cutpoints strictly
ascending, a value equal to any boundary takes that boundary's ≤ branch for
all three dimensions. -/
theorem boundary_tie :
    (∀ c : Cuts, scoreR c c.c20 = 5)
    ∧ (∀ c : Cuts, c.c20 < c.c40 → c.c40 < c.c60 → c.c60 < c.c80 →
        (scoreR c c.c40 = 4 ∧ scoreR c c.c60 = 3 ∧ scoreR c c.c80 = 2)
        ∧ (scoreF c c.c20 = 1 ∧ scoreF c c.c40 = 2 ∧ scoreF c c.c60 = 3
            ∧ scoreF c c.c80 = 4)
        ∧ (scoreM c c.c20 = 1 ∧ scoreM c c.c40 = 2 ∧ scoreM c c.c60 = 3
            ∧ scoreM c c.c80 = 4)) := by
  constructor
  · intro c; simp [scoreR]
  · intro c h1 h2 h3
    refine ⟨⟨?_, ?_, ?_⟩, ⟨?_, ?_, ?_, ?_⟩, ⟨?_, ?_, ?_, ?_⟩⟩ <;>
      (simp only [scoreR, scoreF, scoreM]; split_ifs <;> first | rfl | linarith)

/-- Witness for C2 at the ascending cut set (10, 20, 30, 40). -/
theorem boundary_tie_witness :
    scoreR ⟨10, 20, 30, 40⟩ 10 = 5
    ∧ ((scoreR ⟨10, 20, 30, 40⟩ 20 = 4 ∧ scoreR ⟨10, 20, 30, 40⟩ 30 = 3
          ∧ scoreR ⟨10, 20, 30, 40⟩ 40 = 2)
        ∧ (scoreF ⟨10, 20, 30, 40⟩ 10 = 1 ∧ scoreF ⟨10, 20, 30, 40⟩ 20 = 2
            ∧ scoreF ⟨10, 20, 30, 40⟩ 30 = 3 ∧ scoreF ⟨10, 20, 30, 40⟩ 40 = 4)
        ∧ (scoreM ⟨10, 20, 30, 40⟩ 10 = 1 ∧ scoreM ⟨10, 20, 30, 40⟩ 20 = 2
            ∧ scoreM ⟨10, 20, 30, 40⟩ 30 = 3 ∧ scoreM ⟨10, 20, 30, 40⟩ 40 = 4)) :=
  ⟨boundary_tie.1 ⟨10, 20, 30, 40⟩,
   boundary_tie.2 ⟨10, 20, 30, 40⟩ (by norm_num) (by norm_num) (by norm_num)⟩

/-- C8: R is non-increasing in the raw recency value and F and M are
non-decreasing in their raw values, for every cut set; with the four recency
cutpoints strictly between 1 and 100, recency 1 day scores R=5 and recency
100 days scores R=1, so the 1-day customer's R is ≥ the 100-day customer's. -/
theorem score_monotonicity :
    (∀ (c : Cuts) (r1 r2 : ℚ), r1 ≤ r2 → scoreR c r2 ≤ scoreR c r1)
    ∧ (∀ (c : Cuts) (f1 f2 : ℚ), f1 ≤ f2 → scoreF c f1 ≤ scoreF c f2)
    ∧ (∀ (c : Cuts) (m1 m2 : ℚ), m1 ≤ m2 → scoreM c m1 ≤ scoreM c m2)
    ∧ (∀ c : Cuts, 1 < c.c20 → c.c20 < 100 → 1 < c.c40 → c.c40 < 100 →
        1 < c.c60 → c.c60 < 100 → 1 < c.c80 → c.c80 < 100 →
        scoreR c 100 ≤ scoreR c 1 ∧ scoreR c 1 = 5 ∧ scoreR c 100 = 1) := by
  refine ⟨?_, ?_, ?_, ?_⟩
  · intro c r1 r2 h
    simp only [scoreR]; split_ifs <;> first | rfl | linarith
  · intro c f1 f2 h
    simp only [scoreF]; split_ifs <;> first | rfl | linarith
  · intro c m1 m2 h
    simp only [scoreM]; split_ifs <;> first | rfl | linarith
  · intro c ha hb hc hd he hf hg hh
    refine ⟨?_, ?_, ?_⟩ <;>
      (simp only [scoreR]; split_ifs <;> first | rfl | linarith)

/-- Witness for C8 at the cut set (10, 20, 30, 40), raw values 1 and 100. -/
theorem score_monotonicity_witness :
    scoreR ⟨10, 20, 30, 40⟩ 100 ≤ scoreR ⟨10, 20, 30, 40⟩ 1
    ∧ scoreF ⟨10, 20, 30, 40⟩ 1 ≤ scoreF ⟨10, 20, 30, 40⟩ 100
    ∧ scoreM ⟨10, 20, 30, 40⟩ 1 ≤ scoreM ⟨10, 20, 30, 40⟩ 100
    ∧ (scoreR ⟨10, 20, 30, 40⟩ 100 ≤ scoreR ⟨10, 20, 30, 40⟩ 1
        ∧ scoreR ⟨10, 20, 30, 40⟩ 1 = 5 ∧ scoreR ⟨10, 20, 30, 40⟩ 100 = 1) :=
  ⟨score_monotonicity.1 ⟨10, 20, 30, 40⟩ 1 100 (by norm_num),
   score_monotonicity.2.1 ⟨10, 20, 30, 40⟩ 1 100 (by norm_num),
   score_monotonicity.2.2.1 ⟨10, 20, 30, 40⟩ 1 100 (by norm_num),
   score_monotonicity.2.2.2 ⟨10, 20, 30, 40⟩ (by norm_num) (by norm_num)
     (by norm_num) (by norm_num) (by norm_num) (by norm_num) (by norm_num)
     (by norm_num)⟩

/-- Each record the script labels `s` contributes exactly one to bucket `s`
and nothing to any other bucket. -/
theorem distribution_sum (cs : CutSet) (store : List Customer) :
    ∑ s : Segment, segmentCount cs store s = store.length := by
  induction store with
  | nil => simp [segmentCount]
  | cons c t ih =>
      have h : ∀ s, segmentCount cs (c :: t) s
          = (if segmentOf cs c = s then 1 else 0) + segmentCount cs t s := by
        intro s
        simp only [segmentCount, List.filter_cons]
        split_ifs with h1 h2 <;> simp_all <;> omega
      simp only [h, Finset.sum_add_distrib, ih]
      rw [Finset.sum_ite_eq]
      simp [List.length_cons]
      omega

/-- C7: whenever the scorer returns a distribution, the counts over the seven
labels sum to the total number of customer records — no record is dropped or
double-counted. -/
theorem distribution_conservation (st : Store) (d : Segment → ℕ)
    (h : computeRfmSegments st = Except.ok d) :
    ∑ s : Segment, d s = aggTotalCustomers st := by
  cases hr : cutsOf st.rPct with
  | error e => simp [computeRfmSegments, getPercentiles, hr] at h
  | ok rc =>
    cases hf : cutsOf st.fPct with
    | error e => simp [computeRfmSegments, getPercentiles, hr, hf] at h
    | ok fc =>
      cases hm : cutsOf st.mPct with
      | error e => simp [computeRfmSegments, getPercentiles, hr, hf, hm] at h
      | ok mc =>
        simp only [computeRfmSegments, getPercentiles, hr, hf, hm] at h
        injection h with h
        rw [← h]
        exact distribution_sum ⟨rc, fc, mc⟩ st.customers

/-- Witness for C7 on the concrete one-record store. -/
theorem distribution_conservation_witness :
    ∑ s : Segment,
      segmentCount ⟨⟨10, 20, 30, 40⟩, ⟨10, 20, 30, 40⟩, ⟨10, 20, 30, 40⟩⟩
        demoStore.customers s
      = aggTotalCustomers demoStore :=
  distribution_conservation demoStore
    (fun s => segmentCount ⟨⟨10, 20, 30, 40⟩, ⟨10, 20, 30, 40⟩, ⟨10, 20, 30, 40⟩⟩
      demoStore.customers s) rfl

/-- C3: with totalCount = 0 the guarded percentage computations substitute 0,
so the whole alert list degenerates to at most the rating alert and neither
the High unsatisfied rate nor the Large At-Risk group alert can fire, whatever
the unsatisfied count and the segment distribution are. -/
theorem zero_population_guard (avgOpt : Option ℚ) (unsat : ℕ) (segs : Segment → ℕ) :
    checkAlertsCore 0 avgOpt unsat segs
      = (if pyOr avgOpt < 3.5 then
          [("Low average rating",
            "Average rating is " ++ fmtFixed 2 (pyOr avgOpt) ++ " (< 3.5)")]
         else [])
    ∧ (¬ ∃ m, ("High unsatisfied rate", m) ∈ checkAlertsCore 0 avgOpt unsat segs)
    ∧ (¬ ∃ m, ("Large At-Risk group", m) ∈ checkAlertsCore 0 avgOpt unsat segs) := by
  have heq : checkAlertsCore 0 avgOpt unsat segs
      = (if pyOr avgOpt < 3.5 then
          [("Low average rating",
            "Average rating is " ++ fmtFixed 2 (pyOr avgOpt) ++ " (< 3.5)")]
         else []) := by
    simp [checkAlertsCore]
  refine ⟨heq, ?_, ?_⟩ <;> (rw [heq]; split_ifs <;> simp)

/-- C5: with total 100, average rating 16/5 = 3.2, 15 unsatisfied customers
and 20 At Risk customers, exactly the three alerts fire, in rule order, and
their messages contain "3.20", "15.0%" and "20.0%" respectively. -/
theorem three_alert_scenario (segs : Segment → ℕ) (h : segs Segment.atRisk = 20) :
    checkAlertsCore 100 (some (mkRat 16 5)) 15 segs
      = [("Low average rating", "Average rating is 3.20 (< 3.5)"),
         ("High unsatisfied rate", "15.0% of customers are unsatisfied (>10%)"),
         ("Large At-Risk group", "20 customers (20.0%) are At Risk (>15%)")]
    ∧ strContains "Average rating is 3.20 (< 3.5)" "3.20"
    ∧ strContains "15.0% of customers are unsatisfied (>10%)" "15.0%"
    ∧ strContains "20 customers (20.0%) are At Risk (>15%)" "20.0%" := by
  have h35 : (3.5 : ℚ) = mkRat 7 2 := by rw [Rat.mkRat_eq_div]; norm_num
  have hu : ((15 : ℕ) : ℚ) / ((100 : ℕ) : ℚ) * 100 = (15 : ℚ) := by norm_num
  have ha : ((20 : ℕ) : ℚ) / ((100 : ℕ) : ℚ) * 100 = (20 : ℚ) := by norm_num
  refine ⟨?_, ⟨"Average rating is ", " (< 3.5)", rfl⟩,
    ⟨"", " of customers are unsatisfied (>10%)", rfl⟩,
    ⟨"20 customers (", ") are At Risk (>15%)", rfl⟩⟩
  simp only [checkAlertsCore, pyOr, h, h35, hu, ha]
  decide

/-- Witness for C5 with the constant-20 distribution. -/
theorem three_alert_scenario_witness :
    checkAlertsCore 100 (some (mkRat 16 5)) 15 (fun _ => 20)
      = [("Low average rating", "Average rating is 3.20 (< 3.5)"),
         ("High unsatisfied rate", "15.0% of customers are unsatisfied (>10%)"),
         ("Large At-Risk group", "20 customers (20.0%) are At Risk (>15%)")]
    ∧ strContains "Average rating is 3.20 (< 3.5)" "3.20"
    ∧ strContains "15.0% of customers are unsatisfied (>10%)" "15.0%"
    ∧ strContains "20 customers (20.0%) are At Risk (>15%)" "20.0%" :=
  three_alert_scenario (fun _ => 20) rfl

/-- C9: the scorer is stateless and deterministic — one invocation leaves the
process state unchanged, a second invocation against the unchanged store
returns the identical distribution, and the result is a pure function of the
store contents. -/
theorem scorer_idempotent (σ σ' : ProcState) (hst : σ.store = σ'.store) :
    (rfmScorerInvoke σ).2 = σ
    ∧ (rfmScorerInvoke ((rfmScorerInvoke σ).2)).1 = (rfmScorerInvoke σ).1
    ∧ (rfmScorerInvoke σ).1 = (rfmScorerInvoke σ').1 := by
  refine ⟨rfl, rfl, ?_⟩
  simp [rfmScorerInvoke, hst]

/-- Witness for C9 at the concrete one-record store. -/
theorem scorer_idempotent_witness :
    (rfmScorerInvoke ⟨demoStore⟩).2 = ⟨demoStore⟩
    ∧ (rfmScorerInvoke ((rfmScorerInvoke ⟨demoStore⟩).2)).1
        = (rfmScorerInvoke ⟨demoStore⟩).1
    ∧ (rfmScorerInvoke ⟨demoStore⟩).1 = (rfmScorerInvoke ⟨demoStore⟩).1 :=
  scorer_idempotent ⟨demoStore⟩ ⟨demoStore⟩ rfl

/-- C10 counterexample: on the empty store — no records, hence a degenerate
percentile response with no usable cutpoint values — the alert evaluator does
not return an alert list at all: the segment computation it performs before
returning fails on the first missing percentile key, and that failure discards
the already-evaluated Low average rating alert. -/
theorem empty_store_alert_counterexample :
    checkAlerts emptyStore = Except.error "20.0"
    ∧ ¬ ∃ alerts, checkAlerts emptyStore = Except.ok alerts :=
  ⟨rfl, fun ⟨_, h⟩ => Except.noConfusion h⟩

/-- C10 amended: on an empty store the aggregates degenerate to total 0, null
average and 0 unsatisfied, and the three threshold rules over those aggregates
produce exactly the Low average rating alert with the null average coalesced
to 0 and formatted "0.00" (the percentage alerts suppressed by the zero-total
guard) — but `check_alerts` itself never returns that list: the segment
computation it runs before returning fails on the empty store's degenerate
percentile response, so the call errors instead of returning one alert. -/
theorem empty_store_alert_amended (st : Store) (segs : Segment → ℕ)
    (hempty : st.customers = []) (hpct : st.rPct = []) :
    (∃ k, checkAlerts st = Except.error k)
    ∧ aggTotalCustomers st = 0 ∧ aggAvgRating st = none
    ∧ aggUnsatisfiedCount st = 0
    ∧ checkAlertsCore 0 none 0 segs
      = [("Low average rating", "Average rating is 0.00 (< 3.5)")] := by
  have h35 : (3.5 : ℚ) = mkRat 7 2 := by rw [Rat.mkRat_eq_div]; norm_num
  refine ⟨⟨"20.0", ?_⟩, ?_, ?_, ?_, ?_⟩
  · simp [checkAlerts, computeRfmSegments, getPercentiles, hpct, cutsOf,
      getKey, lookupKey]
  · simp [aggTotalCustomers, hempty]
  · simp [aggAvgRating, hempty]
  · simp [aggUnsatisfiedCount, hempty]
  · simp only [checkAlertsCore, pyOr, h35]
    simp
    decide

/-- Witness for the amended C10 at the literally empty store. -/
theorem empty_store_alert_amended_witness :
    (∃ k, checkAlerts emptyStore = Except.error k)
    ∧ aggTotalCustomers emptyStore = 0 ∧ aggAvgRating emptyStore = none
    ∧ aggUnsatisfiedCount emptyStore = 0
    ∧ checkAlertsCore 0 none 0 (fun _ => 0)
      = [("Low average rating", "Average rating is 0.00 (< 3.5)")] :=
  empty_store_alert_amended emptyStore (fun _ => 0) rfl rfl

/-- C4 counterexample: on a store whose recency percentile response is missing
the `"40.0"` value (but has a nearest available neighbour at `"20.0"` and
`"60.0"`), the scorer does not degrade the missing cutpoint — it aborts with
KeyError `"40.0"`, and so does the whole alert evaluation. -/
theorem missing_percentile_counterexample :
    computeRfmSegments sparseStore = Except.error "40.0"
    ∧ checkAlerts sparseStore = Except.error "40.0" := ⟨rfl, rfl⟩

/-- C4 amended: a missing percentile value is not replaced by a degenerate
cutpoint — whenever any of the four requested values is absent the scorer
fails with a KeyError naming a genuinely missing key, and scoring proceeds
exactly when all four values are present (the cut set then carries the four
looked-up values); with all four present, collapsed (all-equal) boundaries
are tolerated: every raw value still gets a sub-score in [1,5]. -/
theorem missing_percentile_amended :
    (∀ (vals : List (String × ℚ)) (k : String),
        cutsOf vals = Except.error k → lookupKey vals k = none)
    ∧ (∀ vals : List (String × ℚ),
        (lookupKey vals "20.0" = none ∨ lookupKey vals "40.0" = none
          ∨ lookupKey vals "60.0" = none ∨ lookupKey vals "80.0" = none) →
        ∃ k, cutsOf vals = Except.error k ∧ lookupKey vals k = none)
    ∧ (∀ (vals : List (String × ℚ)) (cts : Cuts), cutsOf vals = Except.ok cts →
        lookupKey vals "20.0" = some cts.c20 ∧ lookupKey vals "40.0" = some cts.c40
        ∧ lookupKey vals "60.0" = some cts.c60 ∧ lookupKey vals "80.0" = some cts.c80)
    ∧ (∀ (x v : ℚ),
        (1 ≤ scoreR ⟨x, x, x, x⟩ v ∧ scoreR ⟨x, x, x, x⟩ v ≤ 5)
        ∧ (1 ≤ scoreF ⟨x, x, x, x⟩ v ∧ scoreF ⟨x, x, x, x⟩ v ≤ 5)
        ∧ (1 ≤ scoreM ⟨x, x, x, x⟩ v ∧ scoreM ⟨x, x, x, x⟩ v ≤ 5)) := by
  refine ⟨?_, ?_, ?_, ?_⟩
  · intro vals k h
    cases h20 : lookupKey vals "20.0" with
    | none => simp [cutsOf, getKey, h20] at h; subst h; exact h20
    | some a =>
      cases h40 : lookupKey vals "40.0" with
      | none => simp [cutsOf, getKey, h20, h40] at h; subst h; exact h40
      | some b =>
        cases h60 : lookupKey vals "60.0" with
        | none => simp [cutsOf, getKey, h20, h40, h60] at h; subst h; exact h60
        | some c =>
          cases h80 : lookupKey vals "80.0" with
          | none => simp [cutsOf, getKey, h20, h40, h60, h80] at h; subst h; exact h80
          | some d => simp [cutsOf, getKey, h20, h40, h60, h80] at h
  · intro vals hmiss
    cases h20 : lookupKey vals "20.0" with
    | none => exact ⟨"20.0", by simp [cutsOf, getKey, h20], h20⟩
    | some a =>
      cases h40 : lookupKey vals "40.0" with
      | none => exact ⟨"40.0", by simp [cutsOf, getKey, h20, h40], h40⟩
      | some b =>
        cases h60 : lookupKey vals "60.0" with
        | none => exact ⟨"60.0", by simp [cutsOf, getKey, h20, h40, h60], h60⟩
        | some c =>
          cases h80 : lookupKey vals "80.0" with
          | none => exact ⟨"80.0", by simp [cutsOf, getKey, h20, h40, h60, h80], h80⟩
          | some d => rcases hmiss with h | h | h | h <;> simp_all
  · intro vals cts hok
    cases h20 : lookupKey vals "20.0" with
    | none => simp [cutsOf, getKey, h20] at hok
    | some a =>
      cases h40 : lookupKey vals "40.0" with
      | none => simp [cutsOf, getKey, h20, h40] at hok
      | some b =>
        cases h60 : lookupKey vals "60.0" with
        | none => simp [cutsOf, getKey, h20, h40, h60] at hok
        | some c =>
          cases h80 : lookupKey vals "80.0" with
          | none => simp [cutsOf, getKey, h20, h40, h60, h80] at hok
          | some d =>
            simp only [cutsOf, getKey, h20, h40, h60, h80] at hok
            injection hok with hok
            subst hok
            exact ⟨rfl, rfl, rfl, rfl⟩
  · intro x v
    refine ⟨⟨?_, ?_⟩, ⟨?_, ?_⟩, ⟨?_, ?_⟩⟩ <;>
      (simp only [scoreR, scoreF, scoreM]; split_ifs <;> norm_num)

/-- Witness for the amended C4: the sparse response errors on its genuinely
missing `"40.0"`, the complete response yields exactly its four values, and
fully collapsed boundaries still give in-range scores. -/
theorem missing_percentile_amended_witness :
    lookupKey sparsePct "40.0" = none
    ∧ (∃ k, cutsOf sparsePct = Except.error k ∧ lookupKey sparsePct k = none)
    ∧ (lookupKey fullPct "20.0" = some (Cuts.mk 10 20 30 40).c20
        ∧ lookupKey fullPct "40.0" = some (Cuts.mk 10 20 30 40).c40
        ∧ lookupKey fullPct "60.0" = some (Cuts.mk 10 20 30 40).c60
        ∧ lookupKey fullPct "80.0" = some (Cuts.mk 10 20 30 40).c80)
    ∧ ((1 ≤ scoreR ⟨3, 3, 3, 3⟩ 3 ∧ scoreR ⟨3, 3, 3, 3⟩ 3 ≤ 5)
        ∧ (1 ≤ scoreF ⟨3, 3, 3, 3⟩ 3 ∧ scoreF ⟨3, 3, 3, 3⟩ 3 ≤ 5)
        ∧ (1 ≤ scoreM ⟨3, 3, 3, 3⟩ 3 ∧ scoreM ⟨3, 3, 3, 3⟩ 3 ≤ 5)) :=
  ⟨missing_percentile_amended.1 sparsePct "40.0" rfl,
   missing_percentile_amended.2.1 sparsePct (Or.inr (Or.inl rfl)),
   missing_percentile_amended.2.2.1 fullPct (Cuts.mk 10 20 30 40) rfl,
   missing_percentile_amended.2.2.2 3 3⟩

end RFMElk
